import Mathlib

/-!
Verification of the reactive component / connector subsystem of the
explainerdashboard dashboard_components package.  Python code from
src/explainerdashboard/dashboard_components/ is shallowly embedded:
channel values become an explicit value type, dash handlers become pure
functions returning either an update tuple or the PreventUpdate no-op
signal, and exceptions become an explicit error type.
-/

/-- A dash channel value: either an integer or a string.  A Python None is
represented by wrapping values in Option. -/
inductive Val where
  | vint : Int → Val
  | vstr : String → Val
deriving DecidableEq

/-- Python exceptions raised by the embedded code. -/
inductive PyErr where
  | valueError : String → PyErr
  | typeError : String → PyErr
  | missingStateError : String → PyErr
deriving DecidableEq

/-- Decidable equality for Except results, used to evaluate embedded
fallible code on concrete inputs. -/
instance {ε α : Type} [DecidableEq ε] [DecidableEq α] : DecidableEq (Except ε α) := fun a b =>
  match a, b with
  | .error e₁, .error e₂ =>
    if h : e₁ = e₂ then isTrue (by rw [h]) else isFalse (by intro hc; cases hc; exact h rfl)
  | .ok x, .ok y =>
    if h : x = y then isTrue (by rw [h]) else isFalse (by intro hc; cases hc; exact h rfl)
  | .error _, .ok _ => isFalse (by intro hc; cases hc)
  | .ok _, .error _ => isFalse (by intro hc; cases hc)

/-- Result of one dash callback invocation: either an update carrying the
new output values, or the raised PreventUpdate no-op signal. -/
inductive DashRes (α : Type) where
  | update : α → DashRes α
  | preventUpdate
deriving DecidableEq

/-- Per-output result inside a multi-output update: a written value or the
dash.no_update marker leaving that output as currently rendered. -/
inductive Upd (α : Type) where
  | set : α → Upd α
  | noUpdate
deriving DecidableEq

/-! ## Python string helpers

The source parses strings with str.split, str.strip, the in operator and
int().  These are embedded as total functions over character lists so
that concrete runs reduce inside the kernel. -/

/-- If sep is a prefix of l, drop it and return the remainder. -/
def dropPre : List Char → List Char → Option (List Char)
  | [], l => some l
  | _ :: _, [] => none
  | s :: ss, c :: cs => if s = c then dropPre ss cs else none

/-- Fuel-driven worker for pySplit, splitting l at occurrences of sep. -/
def splitChars (sep : List Char) : Nat → List Char → List Char → List (List Char)
  | 0, l, acc => [acc.reverse ++ l]
  | fuel + 1, l, acc =>
    match l with
    | [] => [acc.reverse]
    | c :: cs =>
      match dropPre sep (c :: cs) with
      | some rest => acc.reverse :: splitChars sep fuel rest []
      | none => splitChars sep fuel cs (c :: acc)

/-- Python str.split with a non-empty separator. -/
def pySplit (s sep : String) : List String :=
  (splitChars sep.toList (s.toList.length + 1) s.toList []).map (fun cs => String.mk cs)

/-- Python str.strip: remove leading and trailing whitespace. -/
def pyStrip (s : String) : String :=
  String.mk (((s.toList.dropWhile Char.isWhitespace).reverse.dropWhile Char.isWhitespace).reverse)

/-- Python's c in s membership test for a single character. -/
def pyContainsChar (s : String) (c : Char) : Bool :=
  s.toList.contains c

/-- Decimal digit value of a character, if it is a digit. -/
def digitVal (c : Char) : Option Nat :=
  if 48 ≤ c.toNat ∧ c.toNat ≤ 57 then some (c.toNat - 48) else none

/-- Accumulate decimal digits into a number; any non-digit fails. -/
def parseDigitsAux : List Char → Nat → Option Nat
  | [], acc => some acc
  | c :: cs, acc =>
    match digitVal c with
    | some d => parseDigitsAux cs (acc * 10 + d)
    | none => none

/-- Parse a non-empty all-digit character list. -/
def parseDigits : List Char → Option Nat
  | [] => none
  | l => parseDigitsAux l 0

/-- Python int(str) on the numeric strings the dashboard channels carry:
optional sign and decimal digits, surrounding whitespace tolerated. -/
def pyParseInt (s : String) : Option Int :=
  match (pyStrip s).toList with
  | '-' :: rest => (parseDigits rest).map (fun n => -(n : Int))
  | '+' :: rest => (parseDigits rest).map (fun n => (n : Int))
  | l => (parseDigits l).map (fun n => (n : Int))

/-- Python int(v) on a channel value: identity on ints, parse on strings,
raising ValueError when the string is not numeric. -/
def pyIntVal : Val → Except PyErr Int
  | .vint i => .ok i
  | .vstr s =>
    match pyParseInt s with
    | some i => .ok i
    | none => .error (.valueError "invalid literal for int() with base 10")

/-- Python int(v) when v may also be None, which raises TypeError. -/
def pyIntOptVal : Option Val → Except PyErr Int
  | none => .error (.typeError "int() argument must not be NoneType")
  | some v => pyIntVal v

/-! ## The explainer interface boundary

Components only query the explainer; it is embedded as a record of the
accessors the verified handlers use.  Figure-producing accessors are kept
symbolic via the figure types below. -/

/-- The analytical model seen through the accessors the embedded handlers
and renderers consult.  get_X_row models get_X_row(index, merge=True)
restricted to the given feature columns, with any raised exception
collapsed to none. -/
structure Explainer where
  index_exists : String → Bool
  columns : List String
  columns_ranked_by_shap : List String
  safe_n_features : Option Int
  get_X_row : String → List String → Option (List Val)

/-- Embeds getattr(self.explainer, "safe_n_features",
len(self.explainer.columns_ranked_by_shap())). -/
def Explainer.n_features (e : Explainer) : Int :=
  match e.safe_n_features with
  | some n => n
  | none => (e.columns_ranked_by_shap.length : Int)

/-! ## Connector construction (connectors.py)

CutoffConnector.cutoff_name, IndexConnector.index_name and
HighlightConnector.highlight_name resolve a str-or-component-or-iterable
argument into channel ids.  A Python value passed there is embedded as a
PyObj; note that in Python a str is itself iterable (its elements are its
one-character substrings), which the pystr case of the resolvers must
honour. -/

/-- A Python argument to a connector resolver: a raw string, an
ExplainerComponent that exposes the looked-up channel-name property with
the given value (none when the component lacks the property), or a list. -/
inductive PyObj where
  | pystr : String → PyObj
  | comp : Option String → PyObj
  | pylist : List PyObj → PyObj

/-- Result of a resolver: Python returns either a single str or a list. -/
inductive PyRes where
  | single : String → PyRes
  | listRes : List String → PyRes
deriving DecidableEq

/-- Embeds the inner get_cutoff_name of CutoffConnector.cutoff_name: a str
resolves to itself, a component to its .cutoff_name property (ValueError
when absent), anything else raises ValueError.  The f-string object text
of the source messages is elided. -/
def get_cutoff_name : PyObj → Except PyErr String
  | .pystr s => .ok s
  | .comp (some n) => .ok n
  | .comp none => .error (.valueError "não tem uma propriedade .cutoff_name!")
  | .pylist _ =>
    .error (.valueError "não é nem str nem um ExplainerComponent com uma propriedade .cutoff_name")

/-- The iterable branch of the connector resolvers: walk the elements in
order, resolving each with the inner lookup and collecting the names,
stopping at the first raised error — the Python for-loop that appends
get_cutoff_name(cutoff) to a list. -/
def resolve_each (f : PyObj → Except PyErr String) : List PyObj → Except PyErr (List String)
  | [] => .ok []
  | o :: os => do
    let n ← f o
    let ns ← resolve_each f os
    .ok (n :: ns)

/-- Embeds the static method CutoffConnector.cutoff_name.  The branch test
in the source is hasattr(cutoffs, "__iter__"), which is true for both
lists and strings: iterating a string yields its characters as
one-character strings, each then resolved by get_cutoff_name. -/
def CutoffConnector.cutoff_name : PyObj → Except PyErr PyRes
  | .pystr s => do
    let names ← resolve_each get_cutoff_name (s.toList.map (fun c => .pystr (String.mk [c])))
    .ok (.listRes names)
  | .pylist xs => do
    let names ← resolve_each get_cutoff_name xs
    .ok (.listRes names)
  | .comp o => do
    let n ← get_cutoff_name (.comp o)
    .ok (.single n)

/-- The state CutoffConnector.__init__ stores: the resolved input (kept
exactly as the resolver returned it) and the output list. -/
structure CutoffConnector where
  input_cutoff_name : PyRes
  output_cutoff_names : List String

/-- Embeds CutoffConnector.__init__(input_cutoff, output_cutoffs),
including the wrap-into-list of a non-list output resolution. -/
def CutoffConnector.init (input_cutoff output_cutoffs : PyObj) :
    Except PyErr CutoffConnector := do
  let inp ← CutoffConnector.cutoff_name input_cutoff
  let out ← CutoffConnector.cutoff_name output_cutoffs
  let outs :=
    match out with
    | .single s => [s]
    | .listRes l => l
  .ok ⟨inp, outs⟩

/-- Embeds the inner get_index_name of IndexConnector.index_name. -/
def get_index_name : PyObj → Except PyErr String
  | .pystr s => .ok s
  | .comp (some n) => .ok n
  | .comp none => .error (.valueError "não tem uma propriedade .index_name!")
  | .pylist _ =>
    .error (.valueError "não é nem str nem um ExplainerComponent com uma propriedade .index_name")

/-- Embeds the static method IndexConnector.index_name; same
hasattr-iterable structure as CutoffConnector.cutoff_name. -/
def IndexConnector.index_name : PyObj → Except PyErr PyRes
  | .pystr s => do
    let names ← resolve_each get_index_name (s.toList.map (fun c => .pystr (String.mk [c])))
    .ok (.listRes names)
  | .pylist xs => do
    let names ← resolve_each get_index_name xs
    .ok (.listRes names)
  | .comp o => do
    let n ← get_index_name (.comp o)
    .ok (.single n)

/-- The state IndexConnector.__init__ stores. -/
structure IndexConnector where
  input_index_name : PyRes
  output_index_names : List String
  explainer : Option Explainer

/-- Embeds IndexConnector.__init__(input_index, output_indexes, explainer). -/
def IndexConnector.init (input_index output_indexes : PyObj) (explainer : Option Explainer) :
    Except PyErr IndexConnector := do
  let inp ← IndexConnector.index_name input_index
  let out ← IndexConnector.index_name output_indexes
  let outs :=
    match out with
    | .single s => [s]
    | .listRes l => l
  .ok ⟨inp, outs, explainer⟩

/-- The state HighlightConnector.__init__ stores (resolution is the same
hasattr-iterable scheme as the cutoff and index connectors). -/
structure HighlightConnector where
  input_highlight_name : PyRes
  output_highlight_names : List String

/-- A Python object handed to the PosLabelConnector resolvers: a
PosLabelSelector with the given name, a component whose .selector is a
PosLabelSelector with the given name (but which itself has no
pos_labels attribute), a raw string, a component exposing a pos_labels
attribute with the given value, or anything else (no selector, no
pos_labels, not a string). -/
inductive PosLabelArg where
  | selector : String → PosLabelArg
  | withSelector : String → PosLabelArg
  | pystr : String → PosLabelArg
  | withPosLabels : List String → PosLabelArg
  | other : PosLabelArg

/-- Embeds PosLabelConnector._get_pos_label: components that are neither
a PosLabelSelector, nor expose a PosLabelSelector at .selector, nor are
a str, raise ValueError. -/
def PosLabelConnector._get_pos_label : PosLabelArg → Except PyErr String
  | .selector n => .ok ("pos-label-" ++ n)
  | .withSelector n => .ok ("pos-label-" ++ n)
  | .pystr s => .ok s
  | .withPosLabels _ =>
    .error (.valueError
      "input_pos_label deve ser str, PosLabelSelector ou uma instância com propriedade .selector que seja um PosLabelSelector!")
  | .other =>
    .error (.valueError
      "input_pos_label deve ser str, PosLabelSelector ou uma instância com propriedade .selector que seja um PosLabelSelector!")

/-- Embeds the inner get_pos_labels of PosLabelConnector._get_pos_labels:
a PosLabelSelector gives its channel, a str gives itself, an object with
a pos_labels attribute gives that value, and any other object — a
non-conforming output component included — silently gives the empty
list (the source has no raise branch here). -/
def get_pos_labels : PosLabelArg → List String
  | .selector n => ["pos-label-" ++ n]
  | .pystr s => [s]
  | .withPosLabels ls => ls
  | .withSelector _ => []
  | .other => []

/-- The output_pos_labels argument of PosLabelConnector.__init__: either
one object or a list of objects. -/
inductive PosLabelOutputs where
  | obj : PosLabelArg → PosLabelOutputs
  | pylist : List PosLabelArg → PosLabelOutputs

/-- Embeds the outer PosLabelConnector._get_pos_labels: the
hasattr(output_pos_labels, "__iter__") branch covers lists and raw
strings (whose iteration yields their one-character substrings),
concatenating the per-element results and deduplicating via list(set());
set iteration order is unspecified in Python, modelled as
first-occurrence dedup.  A single non-iterable object is resolved by the
inner get_pos_labels alone.  No branch of this resolver raises. -/
def PosLabelConnector._get_pos_labels : PosLabelOutputs → List String
  | .pylist xs => ((xs.map get_pos_labels).flatten).dedup
  | .obj (.pystr s) =>
    ((s.toList.map (fun ch => get_pos_labels (.pystr (String.mk [ch])))).flatten).dedup
  | .obj o => get_pos_labels o

/-- The state PosLabelConnector.__init__ stores: _get_pos_label always
resolves the input to a single string; the outputs are flattened and
set-deduplicated into a list. -/
structure PosLabelConnector where
  input_pos_label_name : String
  output_pos_label_names : List String

/-- Embeds PosLabelConnector.__init__(input_pos_label,
output_pos_labels). -/
def PosLabelConnector.init (input_pos_label : PosLabelArg)
    (output_pos_labels : PosLabelOutputs) : Except PyErr PosLabelConnector := do
  let inp ← PosLabelConnector._get_pos_label input_pos_label
  .ok ⟨inp, PosLabelConnector._get_pos_labels output_pos_labels⟩

/-! ## Connector broadcast callbacks (connectors.py)

Each connector's component_callbacks registers handlers with the dash
runtime.  A registration is embedded as the output channel list, the
input (trigger) channel list as the source passes them to dash, and the
handler function. -/

/-- One registered broadcast callback: output channel ids, trigger inputs
exactly as handed to dash (the id slot receives whatever resolution
stored, hence PyRes), and the handler. -/
structure BroadcastCallback where
  outputs : List String
  inputs : List PyRes
  handler : Option Val → DashRes (List (Option Val))

/-- Embeds CutoffConnector.component_callbacks: one callback whose
update_cutoffs returns tuple(cutoff for i in range(len(outputs))). -/
def CutoffConnector.component_callbacks (c : CutoffConnector) : List BroadcastCallback :=
  [{ outputs := c.output_cutoff_names,
     inputs := [c.input_cutoff_name],
     handler := fun cutoff => .update (List.replicate c.output_cutoff_names.length cutoff) }]

/-- Embeds HighlightConnector.component_callbacks and its
update_highlights handler. -/
def HighlightConnector.component_callbacks (c : HighlightConnector) : List BroadcastCallback :=
  [{ outputs := c.output_highlight_names,
     inputs := [c.input_highlight_name],
     handler := fun highlight => .update (List.replicate c.output_highlight_names.length highlight) }]

/-- Embeds PosLabelConnector.component_callbacks: the callback is only
registered when the output list is non-empty (Python truthiness). -/
def PosLabelConnector.component_callbacks (c : PosLabelConnector) : List BroadcastCallback :=
  if c.output_pos_label_names.isEmpty then []
  else
    [{ outputs := c.output_pos_label_names,
       inputs := [.single c.input_pos_label_name],
       handler := fun pos_label =>
         .update (List.replicate c.output_pos_label_names.length pos_label) }]

/-- Embeds IndexConnector.component_callbacks' update_indexes handler.
triggered_id is dash.callback_context.triggered_id (none on an initial
call); the Python != between it and a stored list input is always true. -/
def IndexConnector.update_indexes (c : IndexConnector) (triggered_id : Option String)
    (index : Option String) : DashRes (List (Option String)) :=
  if (match c.input_index_name, triggered_id with
      | .single s, some t => t != s
      | _, _ => true) then .preventUpdate
  else
    match c.explainer with
    | some e =>
      match index with
      | some i =>
        if e.index_exists i then .update (c.output_index_names.map (fun _ => some i))
        else .preventUpdate
      | none => .preventUpdate
    | none =>
      match index with
      | some i => .update (c.output_index_names.map (fun _ => some i))
      | none => .preventUpdate

/-! ## ImportancesComponent (overview_components.py)

Only the figure-producing core is embedded; surrounding layout glue does
not affect the verified properties.  Figures are kept symbolic: a figure
value records which explainer plot accessor was called and with which
arguments. -/

/-- Symbolic figure produced by explainer.plot_importances(kind, topx,
pos_label). -/
inductive ImpFig where
  | plot_importances : Option Val → Option Int → Option Val → ImpFig
deriving DecidableEq

/-- Symbolic static-export document fragment built by the to_html helper
module: a figure, a titled card, or the header wrapper. -/
inductive HtmlOut where
  | fig : ImpFig → HtmlOut
  | card : HtmlOut → String → HtmlOut
  | header : HtmlOut → HtmlOut
deriving DecidableEq

/-- A state snapshot: a flat association of channel id to channel value
(a stored value may itself be the Python None). -/
def Snapshot : Type := List (String × Option Val)

/-- State-dict lookup; a missing key is a MissingStateError. -/
def stateLookup : Snapshot → String → Except PyErr (Option Val)
  | [], k => .error (.missingStateError k)
  | (k₂, v) :: rest, k => if k₂ = k then .ok v else stateLookup rest k

/-- The component state the embedded ImportancesComponent methods read. -/
structure ImportancesComponent where
  name : String
  title : String
  explainer : Explainer

/-- The three declared state fields of ImportancesComponent
(_state_props): depth, importance_type and pos_label. -/
structure ImportancesStateArgs where
  depth : Option Val
  importance_type : Option Val
  pos_label : Option Val
deriving DecidableEq

/-- The instance channel ids of ImportancesComponent: each _state_props
channel-id prefix concatenated with the instance name. -/
def ImportancesComponent.state_channels (c : ImportancesComponent) : List String :=
  ["importances-depth-" ++ c.name,
   "importances-permutation-or-shap-" ++ c.name,
   "pos-label-" ++ c.name]

/-- Modelled from the spec: ExplainerComponent.get_state_args lives in
dashboard_methods.py, which is not under src/.  Per the spec it projects
out this component's fields from the snapshot by (prefix + name,
attribute) lookup, failing with MissingStateError on a missing key. -/
def ImportancesComponent.get_state_args (c : ImportancesComponent) (s : Snapshot) :
    Except PyErr ImportancesStateArgs := do
  let d ← stateLookup s ("importances-depth-" ++ c.name)
  let t ← stateLookup s ("importances-permutation-or-shap-" ++ c.name)
  let p ← stateLookup s ("pos-label-" ++ c.name)
  .ok ⟨d, t, p⟩

/-- Embeds ImportancesComponent.to_html(state_dict, add_header): looks up
the snapshot fields, truncates depth (None when depth is None or at
least n_features), builds plot_importances(kind, topx, pos_label) and
wraps it in a card and optionally the header. -/
def ImportancesComponent.to_html (c : ImportancesComponent) (s : Snapshot)
    (add_header : Bool) : Except PyErr HtmlOut := do
  let args ← c.get_state_args s
  let n_features := c.explainer.n_features
  let depth_val : Option Int ←
    match args.depth with
    | none => pure none
    | some v => do
      let i ← pyIntVal v
      pure (if n_features ≤ i then none else some i)
  let fig := ImpFig.plot_importances args.importance_type depth_val args.pos_label
  let html := HtmlOut.card (HtmlOut.fig fig) c.title
  if add_header then .ok (HtmlOut.header html) else .ok html

/-- Embeds the update_importances handler registered by
ImportancesComponent.component_callbacks: same n_features fetch, same
depth truncation, same plot_importances call on the live channel
values. -/
def ImportancesComponent.update_importances (c : ImportancesComponent)
    (depth permutation_shap pos_label : Option Val) : Except PyErr ImpFig := do
  let n_features := c.explainer.n_features
  let depth_val : Option Int ←
    match depth with
    | none => pure none
    | some v => do
      let i ← pyIntVal v
      pure (if n_features ≤ i then none else some i)
  .ok (ImpFig.plot_importances permutation_shap depth_val pos_label)

/-! ## get_state_tuples with a nested feature input component

PdpComponent.get_state_tuples, ShapContributionsGraphComponent.
get_state_tuples and RegressionPredictionSummaryComponent.
get_state_tuples share one textual body: extend the base tuples with the
nested feature input component's tuples and return
sorted(list(set(...))). -/

/-- Order on (channel id, attribute) pairs used by Python sorted:
lexicographic on the pair. -/
def stateTupleLe (a b : String × String) : Prop :=
  a.1 < b.1 ∨ (a.1 = b.1 ∧ a.2 ≤ b.2)

instance : DecidableRel stateTupleLe := fun a b => by
  unfold stateTupleLe; infer_instance

instance : IsTotal (String × String) stateTupleLe := by
  constructor
  intro a b
  rcases lt_trichotomy a.1 b.1 with h | h | h
  · exact Or.inl (Or.inl h)
  · rcases le_total a.2 b.2 with h₂ | h₂
    · exact Or.inl (Or.inr ⟨h, h₂⟩)
    · exact Or.inr (Or.inr ⟨h.symm, h₂⟩)
  · exact Or.inr (Or.inl h)

instance : IsTrans (String × String) stateTupleLe := by
  constructor
  intro a b c hab hbc
  rcases hab with h₁ | ⟨e₁, l₁⟩
  · rcases hbc with h₂ | ⟨e₂, l₂⟩
    · exact Or.inl (lt_trans h₁ h₂)
    · exact Or.inl (e₂ ▸ h₁)
  · rcases hbc with h₂ | ⟨e₂, l₂⟩
    · exact Or.inl (e₁ ▸ h₂)
    · exact Or.inr ⟨e₁.trans e₂, le_trans l₁ l₂⟩

/-- The canonical sorted de-duplicated form Python's sorted(list(set(xs)))
returns for state tuples. -/
def sortedSet (xs : List (String × String)) : List (String × String) :=
  List.insertionSort stateTupleLe xs.dedup

/-- Modelled from the spec: the base ExplainerComponent.get_state_tuples
(dashboard_methods.py is not under src/) returns the sorted
de-duplicated list of (channel-id prefix + instance name, attribute)
pairs from _state_props. -/
def base_get_state_tuples (state_props : List (String × String)) (name : String) :
    List (String × String) :=
  sortedSet (state_props.map (fun p => (p.1 ++ name, p.2)))

/-- The state read by the shared get_state_tuples override: the instance
name, the class _state_props table, and, when a feature input component
was nested at construction, that component's own get_state_tuples
result. -/
structure ComponentWithFeatureInput where
  name : String
  state_props : List (String × String)
  feature_input_component : Option (List (String × String))

/-- Embeds the get_state_tuples override shared by PdpComponent,
ShapContributionsGraphComponent and RegressionPredictionSummaryComponent:
start from super().get_state_tuples(), extend with the nested feature
input component's get_state_tuples() when present, and return
sorted(list(set(...))). -/
def ComponentWithFeatureInput.get_state_tuples (c : ComponentWithFeatureInput) :
    List (String × String) :=
  let base := base_get_state_tuples c.state_props c.name
  let tuples :=
    match c.feature_input_component with
    | some fi => base ++ fi
    | none => base
  sortedSet tuples

/-! ## Handlers receiving an index channel (C5 sites)

Three handlers from three components, each embedded with its own
symbolic output type. -/

/-- Symbolic figure vocabulary of ShapContributionsGraphComponent's
update_output_div: the empty go.Figure(), a plot_contributions call, and
the update_layout axis retitling applied afterwards. -/
inductive ContribFig where
  | empty : ContribFig
  | plot_contributions : String → Option Int → Option Val → Option Val → Option Val → Bool →
      ContribFig
  | withLayout : ContribFig → String → String → ContribFig
deriving DecidableEq

/-- The component state read by the embedded contributions handler. -/
structure ShapContributionsGraphComponent where
  name : String
  explainer : Explainer
  higher_is_better : Bool

/-- Embeds ShapContributionsGraphComponent.component_callbacks'
update_output_div (the feature_input_component-is-None registration): an
invalid or missing index returns an empty figure (not PreventUpdate);
otherwise depth is decoded (the string literal None becomes a real None,
anything else goes through int()) and plot_contributions is built. -/
def ShapContributionsGraphComponent.update_output_div
    (c : ShapContributionsGraphComponent) (index : Option String)
    (depth sort orientation pos_label : Option Val) : Except PyErr (DashRes ContribFig) :=
  match index with
  | none => .ok (.update .empty)
  | some i =>
    if ¬ c.explainer.index_exists i then .ok (.update .empty)
    else do
      let depth_val : Option Int ←
        if depth = some (.vstr "None") then pure none
        else do
          let d ← pyIntOptVal depth
          pure (some d)
      .ok (.update (.withLayout
        (.plot_contributions i depth_val sort orientation pos_label c.higher_is_better)
        "Contribuição SHAP" "Característica"))

/-- Symbolic output of RegressionPredictionSummaryComponent's
update_output_div: a prediction_result_df table for the index, wrapped by
make_hideable with the component's hide_table flag. -/
inductive RegPredOut where
  | prediction_table : String → Bool → RegPredOut
deriving DecidableEq

/-- The component state read by the embedded regression prediction
handler. -/
structure RegressionPredictionSummaryComponent where
  name : String
  explainer : Explainer
  hide_table : Bool

/-- Embeds RegressionPredictionSummaryComponent.component_callbacks'
update_output_div (feature_input_component-is-None registration): a
missing or nonexistent index raises PreventUpdate, otherwise the
prediction table for the index is returned. -/
def RegressionPredictionSummaryComponent.update_output_div
    (c : RegressionPredictionSummaryComponent) (index : Option String) :
    DashRes RegPredOut :=
  match index with
  | none => .preventUpdate
  | some i =>
    if ¬ c.explainer.index_exists i then .preventUpdate
    else .update (.prediction_table i c.hide_table)

/-- The component state read by the embedded feature input handler. -/
structure FeatureInputComponent where
  name : String
  explainer : Explainer
  _input_features : List String

/-- Embeds FeatureInputComponent.component_callbacks'
update_whatif_inputs: a missing or nonexistent index raises
PreventUpdate; otherwise the row for the index is fetched
(get_X_row(index, merge=True) restricted to _input_features) and its
values returned, any exception in that block again raising
PreventUpdate. -/
def FeatureInputComponent.update_whatif_inputs (c : FeatureInputComponent)
    (index : Option String) : DashRes (List Val) :=
  match index with
  | none => .preventUpdate
  | some i =>
    if ¬ c.explainer.index_exists i then .preventUpdate
    else
      match c.explainer.get_X_row i c._input_features with
      | some vals => .update vals
      | none => .preventUpdate

/-! ## ShapSummaryComponent summary graph handler (shap_components.py) -/

/-- Symbolic figure vocabulary of update_shap_summary_graph: the
aggregate plot_importances call, the detailed plot_importances_detailed
call, and the update_layout retitling applied to either. -/
inductive SumFig where
  | plot_importances : String → Option Int → Option Val → SumFig
  | plot_importances_detailed : Option Int → Option Val → Option String → Nat → Option Nat →
      SumFig
  | withSumLayout : SumFig → String → String → SumFig
deriving DecidableEq

/-- The style written to the index selector column: dict(display="none")
to hide it, or the empty dict to show it. -/
inductive Style where
  | displayNone : Style
  | emptyStyle : Style
deriving DecidableEq

/-- The component state read by the embedded summary graph handler. -/
structure ShapSummaryComponent where
  name : String
  max_cat_colors : Nat
  plot_sample : Option Nat

/-- Embeds the trailing callback-context block of
update_shap_summary_graph: with a non-empty triggered list, a trigger on
the summary-type channel updates both outputs, any other trigger leaves
the style as currently rendered; on the initial call both are updated.
The triggered entries are modelled as the triggering channel ids, i.e.
the prop_id with its .value suffix already split off (dash channel ids
contain no dots). -/
def ShapSummaryComponent.ctx_result (c : ShapSummaryComponent)
    (ctx_triggered : List String) (plot : SumFig) (style : Style) :
    Upd SumFig × Upd Style :=
  match ctx_triggered with
  | trigger_id :: _ =>
    if trigger_id = "shap-summary-type-" ++ c.name then (.set plot, .set style)
    else (.set plot, .noUpdate)
  | [] => (.set plot, .set style)

/-- Embeds ShapSummaryComponent.component_callbacks'
update_shap_summary_graph: depth goes through int() unless None; the
aggregate branch builds the shap importances plot and a hiding style,
the detailed branch builds the detailed plot (highlighting the index
channel value) and a showing style, any other summary type raises
PreventUpdate; the callback context then decides whether the style
output is written. -/
def ShapSummaryComponent.update_shap_summary_graph (c : ShapSummaryComponent)
    (ctx_triggered : List String) (summary_type depth : Option Val)
    (index : Option String) (pos_label : Option Val) :
    Except PyErr (DashRes (Upd SumFig × Upd Style)) := do
  let depth_val : Option Int ←
    match depth with
    | none => pure none
    | some v => do
      let i ← pyIntVal v
      pure (some i)
  if summary_type = some (.vstr "aggregate") then
    let plot := SumFig.withSumLayout (.plot_importances "shap" depth_val pos_label)
      "Valor médio absoluto SHAP" "Característica"
    .ok (.update (c.ctx_result ctx_triggered plot .displayNone))
  else if summary_type = some (.vstr "detailed") then
    let plot := SumFig.withSumLayout
      (.plot_importances_detailed depth_val pos_label index c.max_cat_colors c.plot_sample)
      "Valor SHAP (impacto na saída do modelo)" "Característica"
    .ok (.update (c.ctx_result ctx_triggered plot .emptyStyle))
  else
    .ok .preventUpdate

/-! ## Summary-to-dependence connectors (shap_components.py)

Both connectors parse plotly clickData into derived channel values.  A
clicked point is embedded with its y field (a float for the detailed
summary graph, a category string for the aggregate one) and its hover
text. -/

/-- The y value of a clicked point, as far as the isinstance dispatch in
the handlers inspects it. -/
inductive YVal where
  | float : YVal
  | str : String → YVal
deriving DecidableEq

/-- A clicked plotly point: the fields point_data.get("y") and
point_data.get("text") the connectors read. -/
structure Point where
  y : Option YVal
  text : Option String
deriving DecidableEq

/-- The clickData payload: its points list (entries may be None). -/
structure ClickData where
  points : List (Option Point)
deriving DecidableEq

/-- Embeds the detailed-branch text parsing shared by both connectors:
split the hover text on line breaks, take an identifier from the first
line and a column from the second, each as the stripped part after the
equals sign; none when any of the guarding length checks fails. -/
def parse_detailed_text (text : String) : Option (String × String) :=
  let text_parts := pySplit text "<br>"
  if 2 ≤ text_parts.length then
    let index_part := pySplit (text_parts.getD 0 "") "="
    let col_part := pySplit (text_parts.getD 1 "") "="
    if 1 < index_part.length ∧ 1 < col_part.length then
      some (pyStrip (index_part.getD 1 ""), pyStrip (col_part.getD 1 ""))
    else none
  else none

/-- Embeds the aggregate-branch parsing: the part of y after the colon,
stripped, when y contains a colon, else y itself. -/
def parse_aggregate_y (s : String) : String :=
  if pyContainsChar s ':' then pyStrip ((pySplit s ":").getD 1 "") else s

/-- The state ShapSummaryDependenceConnector.__init__ stores, together
with the explainer its handler validates against.  Spec-modelled
aspect: the handler reads self.explainer, an attribute the
ExplainerComponent base class (dashboard_methods.py, not under src/)
provides; per the spec the connector validates against the source
model. -/
structure ShapSummaryDependenceConnector where
  sum_name : String
  dep_name : String
  explainer : Explainer

/-- Embeds ShapSummaryDependenceConnector.component_callbacks'
display_scatter_click_data: a detailed-graph click parses to an
(index, column) pair, validated by index_exists before both dependence
channels are written; an aggregate-graph click parses a column,
validated against the explainer columns before only the column channel
is written; every other case raises PreventUpdate. -/
def ShapSummaryDependenceConnector.display_scatter_click_data
    (c : ShapSummaryDependenceConnector) (clickdata : Option ClickData) :
    DashRes (Upd (Option String) × Upd (Option String)) :=
  match clickdata with
  | none => .preventUpdate
  | some cd =>
    if cd.points.isEmpty then .preventUpdate
    else
      match cd.points.getD 0 none with
      | none => .preventUpdate
      | some point_data =>
        match point_data.y with
        | some .float =>
          match parse_detailed_text (point_data.text.getD "") with
          | some (index, col) =>
            if c.explainer.index_exists index then .update (.set (some index), .set (some col))
            else .preventUpdate
          | none => .preventUpdate
        | some (.str s) =>
          let col := parse_aggregate_y s
          if col ∈ c.explainer.columns then .update (.noUpdate, .set (some col))
          else .preventUpdate
        | none => .preventUpdate

/-- One registered click-data callback of the summary-to-dependence
connector: its two output channel ids, its single trigger input, and the
handler. -/
structure ClickCallback where
  outputs : List String
  inputs : List String
  handler : Option ClickData → DashRes (Upd (Option String) × Upd (Option String))

/-- Embeds ShapSummaryDependenceConnector.component_callbacks: one
callback, writing the dependence index and column channels, triggered by
the summary graph clickData channel. -/
def ShapSummaryDependenceConnector.component_callbacks
    (c : ShapSummaryDependenceConnector) : List ClickCallback :=
  [{ outputs := ["shap-dependence-index-" ++ c.dep_name,
                 "shap-dependence-col-" ++ c.dep_name],
     inputs := ["shap-summary-graph-" ++ c.sum_name],
     handler := c.display_scatter_click_data }]

/-- The state InteractionSummaryDependenceConnector.__init__ stores, with
the same spec-modelled self.explainer note as its shap counterpart. -/
structure InteractionSummaryDependenceConnector where
  sum_name : String
  dep_name : String
  explainer : Explainer

/-- Embeds InteractionSummaryDependenceConnector.component_callbacks'
update_interact_col_highlight: the summary col channel value is always
written through to the dependence col channel; the index and
interaction-column channels receive parsed and validated click values,
or the per-output no_update marker when parsing or validation fails. -/
def InteractionSummaryDependenceConnector.update_interact_col_highlight
    (c : InteractionSummaryDependenceConnector) (col : Option Val)
    (clickdata : Option ClickData) :
    DashRes (Upd (Option Val) × Upd (Option String) × Upd (Option String)) :=
  let updates : Upd (Option String) × Upd (Option String) :=
    match clickdata with
    | none => (.noUpdate, .noUpdate)
    | some cd =>
      if cd.points.isEmpty then (.noUpdate, .noUpdate)
      else
        match cd.points.getD 0 none with
        | none => (.noUpdate, .noUpdate)
        | some point_data =>
          match point_data.y with
          | some .float =>
            match parse_detailed_text (point_data.text.getD "") with
            | some (index, interact_col) =>
              if c.explainer.index_exists index ∧ interact_col ∈ c.explainer.columns then
                (.set (some index), .set (some interact_col))
              else (.noUpdate, .noUpdate)
            | none => (.noUpdate, .noUpdate)
          | some (.str s) =>
            let interact_col := parse_aggregate_y s
            if interact_col ∈ c.explainer.columns then (.noUpdate, .set (some interact_col))
            else (.noUpdate, .noUpdate)
          | none => (.noUpdate, .noUpdate)
  .update (.set col, updates.1, updates.2)

/-! ## Claim theorems -/

/-- Reduction of an Except bind on a success value. -/
theorem exceptBind_ok {ε α β : Type} (a : α) (f : α → Except ε β) :
    (Except.ok a >>= f : Except ε β) = f a := rfl

/-- Reduction of an Except bind on an error value. -/
theorem exceptBind_error {ε α β : Type} (e : ε) (f : α → Except ε β) :
    (Except.error e >>= f : Except ε β) = Except.error e := rfl

/-- Reduction of an Except map on a success value. -/
theorem exceptMap_ok {ε α β : Type} (f : α → β) (a : α) :
    (Except.ok a : Except ε α).map f = Except.ok (f a) := rfl

/-- Reduction of an Except map on an error value. -/
theorem exceptMap_error {ε α β : Type} (f : α → β) (e : ε) :
    (Except.error e : Except ε α).map f = Except.error e := rfl

/-- C1: for every cutoff, highlight or pos-label connector wired with one
resolved input channel and K resolved output channels,
component_callbacks registers exactly one handler whose sole trigger is
the input channel and whose outputs are all K output channels, and every
fire writes the incoming value, untransformed, to all K outputs as a
K-tuple of identical copies. -/
theorem connectors_register_one_identity_broadcast
    (cutoff : CutoffConnector) (ic : String)
    (hcut : cutoff.input_cutoff_name = .single ic)
    (highlight : HighlightConnector) (ih : String)
    (hhi : highlight.input_highlight_name = .single ih)
    (poslabel : PosLabelConnector)
    (hpos : poslabel.output_pos_label_names ≠ []) :
    (∃ cb, CutoffConnector.component_callbacks cutoff = [cb]
      ∧ cb.inputs = [.single ic]
      ∧ cb.outputs = cutoff.output_cutoff_names
      ∧ ∀ v, cb.handler v = .update (List.replicate cutoff.output_cutoff_names.length v))
  ∧ (∃ cb, HighlightConnector.component_callbacks highlight = [cb]
      ∧ cb.inputs = [.single ih]
      ∧ cb.outputs = highlight.output_highlight_names
      ∧ ∀ v, cb.handler v = .update (List.replicate highlight.output_highlight_names.length v))
  ∧ (∃ cb, PosLabelConnector.component_callbacks poslabel = [cb]
      ∧ cb.inputs = [.single poslabel.input_pos_label_name]
      ∧ cb.outputs = poslabel.output_pos_label_names
      ∧ ∀ v, cb.handler v = .update (List.replicate poslabel.output_pos_label_names.length v)) := by
  refine ⟨⟨_, rfl, ?_, rfl, fun v => rfl⟩, ⟨_, rfl, ?_, rfl, fun v => rfl⟩, ?_⟩
  · rw [hcut]
  · rw [hhi]
  · have hne : poslabel.output_pos_label_names.isEmpty = false := by
      cases h : poslabel.output_pos_label_names with
      | nil => exact absurd h hpos
      | cons a l => simp
    simp only [PosLabelConnector.component_callbacks, hne, Bool.false_eq_true, if_false]
    exact ⟨_, rfl, rfl, rfl, fun v => rfl⟩

/-- C1 witness: concrete wired connectors with two outputs each. -/
theorem connectors_register_one_identity_broadcast_witness :
    (CutoffConnector.input_cutoff_name ⟨.single "cut-in", ["cut-o1", "cut-o2"]⟩ = .single "cut-in")
  ∧ ∃ cb, CutoffConnector.component_callbacks ⟨.single "cut-in", ["cut-o1", "cut-o2"]⟩ = [cb]
      ∧ cb.inputs = [.single "cut-in"]
      ∧ cb.outputs = ["cut-o1", "cut-o2"]
      ∧ ∀ v, cb.handler v = .update (List.replicate 2 v) :=
  ⟨rfl,
    (connectors_register_one_identity_broadcast
      ⟨.single "cut-in", ["cut-o1", "cut-o2"]⟩ "cut-in" rfl
      ⟨.single "hl-in", ["hl-o1"]⟩ "hl-in" rfl
      ⟨"pos-label-a", ["pos-label-b"]⟩ (by decide)).1⟩

/-- C2: the IndexConnector handler broadcasts the incoming index to all
output index channels exactly when the trigger is the declared (single,
resolved) input channel, the value is not None, and, when an explainer
was supplied, the explainer reports the index as existing; in every
other case it raises the PreventUpdate no-op signal. -/
theorem index_connector_broadcast_iff (c : IndexConnector)
    (trig : Option String) (index : Option String) :
    (c.update_indexes trig index = .update (c.output_index_names.map (fun _ => index))
      ↔ ((∃ s, trig = some s ∧ c.input_index_name = .single s) ∧ index ≠ none ∧
          ∀ e, c.explainer = some e → e.index_exists (index.getD "") = true))
  ∧ (¬ ((∃ s, trig = some s ∧ c.input_index_name = .single s) ∧ index ≠ none ∧
        ∀ e, c.explainer = some e → e.index_exists (index.getD "") = true) →
      c.update_indexes trig index = .preventUpdate) := by
  unfold IndexConnector.update_indexes
  rcases hin : c.input_index_name with s | l
  · rcases trig with _ | t
    · simp
    · by_cases ht : t = s
      · subst ht
        simp only [bne_self_eq_false, Bool.false_eq_true, if_false]
        rcases hex : c.explainer with _ | e
        · rcases index with _ | i <;> simp [hex]
        · rcases index with _ | i
          · simp [hex]
          · by_cases hidx : e.index_exists i = true <;> simp [hex, hidx]
      · have : (t != s) = true := by simpa using ht
        simp [this, ht]
        intro h
        exact absurd h.symm ht
  · simp

/-- C2 witness: a wired index connector with an explainer knowing record
42 broadcasts 42 to both outputs when triggered on its input channel. -/
theorem index_connector_broadcast_iff_witness :
    IndexConnector.update_indexes
      ⟨.single "idx-in", ["idx-o1", "idx-o2"],
        some ⟨fun i => i == "42", [], [], none, fun _ _ => none⟩⟩
      (some "idx-in") (some "42") = .update [some "42", some "42"] := by
  have h := (index_connector_broadcast_iff
      ⟨.single "idx-in", ["idx-o1", "idx-o2"],
        some ⟨fun i => i == "42", [], [], none, fun _ _ => none⟩⟩
      (some "idx-in") (some "42")).1.mpr
    ⟨⟨"idx-in", rfl, rfl⟩, by decide, by intro e he; cases he; decide⟩
  simpa using h

/-- C3: ImportancesComponent.to_html is a pure function of the snapshot
restricted to the component's declared state channels, and on a snapshot
whose projection succeeds it renders exactly the figure the live
update_importances handler computes from the same channel values (same
importance kind, same depth truncation, same pos_label), wrapped in the
card and optional header. -/
theorem importances_to_html_matches_handler (c : ImportancesComponent) :
    (∀ s₁ s₂ add_header,
      (∀ ch ∈ c.state_channels, stateLookup s₁ ch = stateLookup s₂ ch) →
      c.to_html s₁ add_header = c.to_html s₂ add_header)
  ∧ (∀ s args add_header, c.get_state_args s = .ok args →
      c.to_html s add_header
        = (c.update_importances args.depth args.importance_type args.pos_label).map
            (fun fig =>
              if add_header then HtmlOut.header (HtmlOut.card (.fig fig) c.title)
              else HtmlOut.card (.fig fig) c.title)) := by
  constructor
  · intro s₁ s₂ add_header h
    have hd := h ("importances-depth-" ++ c.name)
      (by simp [ImportancesComponent.state_channels])
    have ht := h ("importances-permutation-or-shap-" ++ c.name)
      (by simp [ImportancesComponent.state_channels])
    have hp := h ("pos-label-" ++ c.name)
      (by simp [ImportancesComponent.state_channels])
    simp only [ImportancesComponent.to_html, ImportancesComponent.get_state_args, hd, ht, hp]
  · intro s args add_header h
    simp only [ImportancesComponent.to_html, ImportancesComponent.update_importances, h]
    rcases args with ⟨d, t, p⟩
    rcases d with _ | v
    · cases add_header <;> rfl
    · rcases hv : pyIntVal v with e | i <;>
        simp only [exceptBind_ok, hv, exceptBind_error, exceptMap_ok, exceptMap_error] <;>
        cases add_header <;> rfl

/-- C3 witness: a concrete component and snapshot; the projection
succeeds and to_html renders exactly the handler figure in a card. -/
theorem importances_to_html_matches_handler_witness :
    ImportancesComponent.to_html
      ⟨"x", "Importância das Variáveis", ⟨fun _ => true, [], ["a", "b", "c"], none, fun _ _ => none⟩⟩
      [("importances-depth-x", some (.vint 2)),
       ("importances-permutation-or-shap-x", some (.vstr "shap")),
       ("pos-label-x", some (.vint 1))] false
      = (ImportancesComponent.update_importances
          ⟨"x", "Importância das Variáveis", ⟨fun _ => true, [], ["a", "b", "c"], none, fun _ _ => none⟩⟩
          (some (.vint 2)) (some (.vstr "shap")) (some (.vint 1))).map
          (fun fig => HtmlOut.card (.fig fig) "Importância das Variáveis") := by
  have h := (importances_to_html_matches_handler
      ⟨"x", "Importância das Variáveis", ⟨fun _ => true, [], ["a", "b", "c"], none, fun _ _ => none⟩⟩).2
    [("importances-depth-x", some (.vint 2)),
     ("importances-permutation-or-shap-x", some (.vstr "shap")),
     ("pos-label-x", some (.vint 1))]
    ⟨some (.vint 2), some (.vstr "shap"), some (.vint 1)⟩ false (by decide)
  simpa using h

/-- C4: for every component embedding a nested feature input component,
get_state_tuples is sorted, duplicate-free, contains the channel pair of
every own _state_props entry and every pair of the nested component's
get_state_tuples. -/
theorem get_state_tuples_sorted_nodup_union (c : ComponentWithFeatureInput)
    (fi : List (String × String)) (h : c.feature_input_component = some fi) :
    List.Sorted stateTupleLe c.get_state_tuples
  ∧ c.get_state_tuples.Nodup
  ∧ (∀ p ∈ c.state_props, (p.1 ++ c.name, p.2) ∈ c.get_state_tuples)
  ∧ (∀ p ∈ fi, p ∈ c.get_state_tuples) := by
  unfold ComponentWithFeatureInput.get_state_tuples
  rw [h]
  set l := base_get_state_tuples c.state_props c.name ++ fi with hl
  have hperm : (sortedSet l).Perm l.dedup := List.perm_insertionSort _ _
  refine ⟨?_, ?_, ?_, ?_⟩
  · exact List.sorted_insertionSort stateTupleLe l.dedup
  · exact hperm.nodup_iff.mpr (List.nodup_dedup l)
  · intro p hp
    rw [hperm.mem_iff, List.mem_dedup, hl, List.mem_append]
    left
    unfold base_get_state_tuples sortedSet
    rw [(List.perm_insertionSort _ _).mem_iff, List.mem_dedup, List.mem_map]
    exact ⟨p, hp, rfl⟩
  · intro p hp
    rw [hperm.mem_iff, List.mem_dedup, hl, List.mem_append]
    exact Or.inr hp

/-- C4 witness: a concrete component with one own state pair and a nested
feature input component contributing another pair. -/
theorem get_state_tuples_sorted_nodup_union_witness :
    ComponentWithFeatureInput.feature_input_component
        ⟨"x", [("pdp-col-", "value")], some [("feature-input-age-x", "value")]⟩
      = some [("feature-input-age-x", "value")]
  ∧ ("pdp-col-x", "value")
      ∈ ComponentWithFeatureInput.get_state_tuples
          ⟨"x", [("pdp-col-", "value")], some [("feature-input-age-x", "value")]⟩
  ∧ ("feature-input-age-x", "value")
      ∈ ComponentWithFeatureInput.get_state_tuples
          ⟨"x", [("pdp-col-", "value")], some [("feature-input-age-x", "value")]⟩ := by
  have h := get_state_tuples_sorted_nodup_union
    ⟨"x", [("pdp-col-", "value")], some [("feature-input-age-x", "value")]⟩
    [("feature-input-age-x", "value")] rfl
  exact ⟨rfl, h.2.2.1 ("pdp-col-", "value") (by simp), h.2.2.2 ("feature-input-age-x", "value") (by simp)⟩

/-- C5 counterexample: ShapContributionsGraphComponent's update_output_div
invoked with the None index does not leave its output channel unchanged:
it writes an empty figure instead of raising the PreventUpdate no-op
signal. -/
theorem contributions_handler_writes_empty_on_none :
    ShapContributionsGraphComponent.update_output_div
      ⟨"x", ⟨fun _ => false, [], [], none, fun _ _ => none⟩, true⟩
      none none none none none
      = .ok (.update ContribFig.empty)
  ∧ (Except.ok (DashRes.update ContribFig.empty) : Except PyErr (DashRes ContribFig))
      ≠ .ok .preventUpdate := by
  exact ⟨rfl, by decide⟩

/-- C5 amended: on a None or nonexistent index none of the three handlers
raises; the regression prediction summary handler and the feature input
handler emit the PreventUpdate no-op signal, while the shap
contributions graph handler instead writes an empty figure to its
output channel. -/
theorem index_handlers_on_invalid_index
    (c₁ : ShapContributionsGraphComponent)
    (c₂ : RegressionPredictionSummaryComponent)
    (c₃ : FeatureInputComponent) (index : Option String)
    (h₁ : ∀ i, index = some i → c₁.explainer.index_exists i = false)
    (h₂ : ∀ i, index = some i → c₂.explainer.index_exists i = false)
    (h₃ : ∀ i, index = some i → c₃.explainer.index_exists i = false) :
    (∀ depth sort orientation pos_label,
      c₁.update_output_div index depth sort orientation pos_label = .ok (.update .empty))
  ∧ c₂.update_output_div index = .preventUpdate
  ∧ c₃.update_whatif_inputs index = .preventUpdate := by
  refine ⟨?_, ?_, ?_⟩
  · intro depth sort orientation pos_label
    rcases index with _ | i
    · rfl
    · have := h₁ i rfl
      simp [ShapContributionsGraphComponent.update_output_div, this]
  · rcases index with _ | i
    · rfl
    · have := h₂ i rfl
      simp [RegressionPredictionSummaryComponent.update_output_div, this]
  · rcases index with _ | i
    · rfl
    · have := h₃ i rfl
      simp [FeatureInputComponent.update_whatif_inputs, this]

/-- C5 amended witness: concrete components receiving an index their
explainers do not know. -/
theorem index_handlers_on_invalid_index_witness :
    ShapContributionsGraphComponent.update_output_div
        ⟨"a", ⟨fun i => i == "42", [], [], none, fun _ _ => none⟩, true⟩
        (some "7") none none none none = .ok (.update .empty)
  ∧ RegressionPredictionSummaryComponent.update_output_div
        ⟨"b", ⟨fun i => i == "42", [], [], none, fun _ _ => none⟩, false⟩
        (some "7") = .preventUpdate
  ∧ FeatureInputComponent.update_whatif_inputs
        ⟨"c", ⟨fun i => i == "42", [], [], none, fun _ _ => none⟩, ["age"]⟩
        (some "7") = .preventUpdate := by
  have h := index_handlers_on_invalid_index
    ⟨"a", ⟨fun i => i == "42", [], [], none, fun _ _ => none⟩, true⟩
    ⟨"b", ⟨fun i => i == "42", [], [], none, fun _ _ => none⟩, false⟩
    ⟨"c", ⟨fun i => i == "42", [], [], none, fun _ _ => none⟩, ["age"]⟩
    (some "7")
    (by intro i hi; cases hi; decide)
    (by intro i hi; cases hi; decide)
    (by intro i hi; cases hi; decide)
  exact ⟨h.1 none none none none, h.2.1, h.2.2⟩

/-- C6: evaluating the constructors at a raw channel-id string input.
Because a Python str is iterable, CutoffConnector.__init__ and
IndexConnector.__init__ resolve a raw string input to the list of its
one-character substrings instead of to the single given channel id that
the constructor docstrings and the spec describe. -/
theorem connector_string_input_decomposes :
    (CutoffConnector.init (.pystr "cutoff-foo") (.pylist [.pystr "out-1"])).map
        (fun c => c.input_cutoff_name)
      = .ok (.listRes ["c", "u", "t", "o", "f", "f", "-", "f", "o", "o"])
  ∧ (CutoffConnector.init (.pystr "cutoff-foo") (.pylist [.pystr "out-1"])).map
        (fun c => c.input_cutoff_name)
      ≠ .ok (.single "cutoff-foo")
  ∧ (IndexConnector.init (.pystr "idx") (.pylist [.pystr "out-1"]) none).map
        (fun c => c.input_index_name)
      = .ok (.listRes ["i", "d", "x"]) := by
  refine ⟨by decide, by decide, by decide⟩

/-- Every error raised inside CutoffConnector.cutoff_name resolution is a
ValueError. -/
theorem get_cutoff_name_error_valueError (o : PyObj) (e : PyErr)
    (h : get_cutoff_name o = .error e) : ∃ m, e = .valueError m := by
  cases o with
  | pystr s => exact absurd h (by simp [get_cutoff_name])
  | comp oc =>
    cases oc with
    | none =>
      simp only [get_cutoff_name, Except.error.injEq] at h
      exact ⟨_, h.symm⟩
    | some n => exact absurd h (by simp [get_cutoff_name])
  | pylist xs =>
    simp only [get_cutoff_name, Except.error.injEq] at h
    exact ⟨_, h.symm⟩

/-- Every error raised inside IndexConnector.index_name resolution is a
ValueError. -/
theorem get_index_name_error_valueError (o : PyObj) (e : PyErr)
    (h : get_index_name o = .error e) : ∃ m, e = .valueError m := by
  cases o with
  | pystr s => exact absurd h (by simp [get_index_name])
  | comp oc =>
    cases oc with
    | none =>
      simp only [get_index_name, Except.error.injEq] at h
      exact ⟨_, h.symm⟩
    | some n => exact absurd h (by simp [get_index_name])
  | pylist xs =>
    simp only [get_index_name, Except.error.injEq] at h
    exact ⟨_, h.symm⟩

/-- Resolving a list that contains a component lacking the looked-up
property fails with a ValueError, wherever the bad component sits. -/
theorem resolve_each_valueError_of_bad (f : PyObj → Except PyErr String)
    (hcl : ∀ o e, f o = .error e → ∃ m, e = .valueError m)
    (hbad : ∃ e, f (.comp none) = .error e) (xs ys : List PyObj) :
    ∃ m, resolve_each f (xs ++ .comp none :: ys) = .error (.valueError m) := by
  induction xs with
  | nil =>
    obtain ⟨e, he⟩ := hbad
    obtain ⟨m, hm⟩ := hcl _ _ he
    subst hm
    exact ⟨m, by simp [resolve_each, he, exceptBind_error]⟩
  | cons x xs ih =>
    rcases hfx : f x with e | n
    · obtain ⟨m, hm⟩ := hcl _ _ hfx
      subst hm
      exact ⟨m, by simp [resolve_each, hfx, exceptBind_error]⟩
    · obtain ⟨m, hm⟩ := ih
      exact ⟨m, by simp [resolve_each, hfx, hm, exceptBind_ok, exceptBind_error]⟩

/-- C7 counterexample: a PosLabelConnector built with a well-formed input
channel and an output component that exposes none of the looked-up
properties does not fail: construction succeeds, the non-conforming
output silently resolving to no output channels at all. -/
theorem pos_label_connector_accepts_bad_output :
    PosLabelConnector.init (.pystr "pos-label-in") (.pylist [.other])
      = .ok ⟨"pos-label-in", []⟩ := rfl

/-- C7 amended: for CutoffConnector and IndexConnector a component
lacking the required public property makes construction raise — in the
input position and in the output position (single or anywhere inside the
output list) — with the ValueError realising the spec taxonomy entry
ConfigurationError; for PosLabelConnector only the input position
raises: construction succeeds for every output argument once the input
resolves, the inner resolver mapping a non-conforming output component
silently to the empty channel list. -/
theorem connector_missing_property_input_output (out : PyObj) (s : String)
    (xs ys : List PyObj) (inp : PosLabelArg) (outs : PosLabelOutputs) :
    (∃ m, CutoffConnector.init (.comp none) out = .error (.valueError m))
  ∧ (∃ m, CutoffConnector.init (.comp (some s)) (.comp none) = .error (.valueError m))
  ∧ (∃ m, CutoffConnector.init (.comp (some s)) (.pylist (xs ++ .comp none :: ys))
      = .error (.valueError m))
  ∧ (∃ m, IndexConnector.init (.comp none) out none = .error (.valueError m))
  ∧ (∃ m, IndexConnector.init (.comp (some s)) (.pylist (xs ++ .comp none :: ys)) none
      = .error (.valueError m))
  ∧ (∃ m, PosLabelConnector.init .other outs = .error (.valueError m))
  ∧ (∀ t, PosLabelConnector._get_pos_label inp = .ok t →
      PosLabelConnector.init inp outs
        = .ok ⟨t, PosLabelConnector._get_pos_labels outs⟩)
  ∧ get_pos_labels .other = [] := by
  refine ⟨⟨"não tem uma propriedade .cutoff_name!", rfl⟩,
    ⟨"não tem uma propriedade .cutoff_name!", rfl⟩, ?_,
    ⟨"não tem uma propriedade .index_name!", rfl⟩, ?_,
    ⟨"input_pos_label deve ser str, PosLabelSelector ou uma instância com propriedade .selector que seja um PosLabelSelector!",
      rfl⟩, ?_, rfl⟩
  · obtain ⟨m, hm⟩ := resolve_each_valueError_of_bad get_cutoff_name
      get_cutoff_name_error_valueError ⟨_, rfl⟩ xs ys
    refine ⟨m, ?_⟩
    unfold CutoffConnector.init CutoffConnector.cutoff_name
    simp [get_cutoff_name, hm, exceptBind_ok, exceptBind_error]
  · obtain ⟨m, hm⟩ := resolve_each_valueError_of_bad get_index_name
      get_index_name_error_valueError ⟨_, rfl⟩ xs ys
    refine ⟨m, ?_⟩
    unfold IndexConnector.init IndexConnector.index_name
    simp [get_index_name, hm, exceptBind_ok, exceptBind_error]
  · intro t ht
    unfold PosLabelConnector.init
    rw [ht]
    rfl

/-- C7 amended witness: a bad output component inside the output list of
a CutoffConnector aborts construction, while the same bad component in a
PosLabelConnector output list is silently dropped. -/
theorem connector_missing_property_input_output_witness :
    (∃ m, CutoffConnector.init (.comp (some "cutoff-in")) (.pylist [.comp none])
        = .error (.valueError m))
  ∧ PosLabelConnector.init (.pystr "pos-label-in")
        (.pylist [.other, .pystr "pos-label-out"])
      = .ok ⟨"pos-label-in", ["pos-label-out"]⟩ := by
  have h := connector_missing_property_input_output (.pystr "o") "cutoff-in" [] []
    (.pystr "pos-label-in") (.pylist [.other, .pystr "pos-label-out"])
  refine ⟨?_, ?_⟩
  · simpa using h.2.2.1
  · have h7 := h.2.2.2.2.2.2.1 "pos-label-in" rfl
    simpa using h7

/-- C8 counterexample: the CutoffConnector broadcast handler invoked with
the None sentinel does not emit the no-op signal; it broadcasts None to
both of its output channels. -/
theorem cutoff_broadcast_handler_writes_none :
    (CutoffConnector.component_callbacks ⟨.single "cut-in", ["cut-o1", "cut-o2"]⟩).map
        (fun cb => cb.handler none)
      = [.update [none, none]]
  ∧ ([.update [none, none]] : List (DashRes (List (Option Val)))) ≠ [.preventUpdate] := by
  refine ⟨by decide, by decide⟩

/-- C8 amended: the IndexConnector handler emits the no-op signal when the
input value is None, but the PosLabelConnector, CutoffConnector and
HighlightConnector broadcast handlers broadcast the incoming value to
all their outputs unconditionally, including the None sentinel. -/
theorem broadcast_handlers_on_none
    (cutoff : CutoffConnector) (highlight : HighlightConnector)
    (poslabel : PosLabelConnector) (ic : IndexConnector) (trig : Option String) :
    (∀ cb ∈ CutoffConnector.component_callbacks cutoff,
      cb.handler none = .update (List.replicate cutoff.output_cutoff_names.length none))
  ∧ (∀ cb ∈ HighlightConnector.component_callbacks highlight,
      cb.handler none = .update (List.replicate highlight.output_highlight_names.length none))
  ∧ (∀ cb ∈ PosLabelConnector.component_callbacks poslabel,
      cb.handler none = .update (List.replicate poslabel.output_pos_label_names.length none))
  ∧ ic.update_indexes trig none = .preventUpdate := by
  refine ⟨?_, ?_, ?_, ?_⟩
  · intro cb hcb
    unfold CutoffConnector.component_callbacks at hcb
    rw [List.mem_singleton] at hcb
    subst hcb
    rfl
  · intro cb hcb
    unfold HighlightConnector.component_callbacks at hcb
    rw [List.mem_singleton] at hcb
    subst hcb
    rfl
  · intro cb hcb
    unfold PosLabelConnector.component_callbacks at hcb
    by_cases he : poslabel.output_pos_label_names.isEmpty
    · simp [he] at hcb
    · simp only [he, Bool.false_eq_true, if_false] at hcb
      rw [List.mem_singleton] at hcb
      subst hcb
      rfl
  · unfold IndexConnector.update_indexes
    rcases hin : ic.input_index_name with s | l
    · rcases trig with _ | t
      · rfl
      · by_cases ht : (t != s) = true
        · simp [ht]
        · simp only [ht, Bool.false_eq_true, if_false]
          rcases ic.explainer with _ | e <;> rfl
    · rfl

/-- C8 amended witness: concrete connectors fired with None. -/
theorem broadcast_handlers_on_none_witness :
    (∀ cb ∈ CutoffConnector.component_callbacks ⟨.single "cut-in", ["cut-o1", "cut-o2"]⟩,
      cb.handler none = .update [none, none])
  ∧ IndexConnector.update_indexes ⟨.single "idx-in", ["idx-o1"], none⟩ (some "idx-in") none
      = .preventUpdate := by
  have h := broadcast_handlers_on_none
    ⟨.single "cut-in", ["cut-o1", "cut-o2"]⟩
    ⟨.single "hl-in", ["hl-o1"]⟩
    ⟨"pos-label-a", ["pos-label-b"]⟩
    ⟨.single "idx-in", ["idx-o1"], none⟩ (some "idx-in")
  exact ⟨h.1, h.2.2.2⟩

/-- Reduction of an Except bind on a pure value. -/
theorem exceptBind_pure {ε α β : Type} (a : α) (f : α → Except ε β) :
    ((pure a : Except ε α) >>= f) = f a := rfl

/-- C9: for a valid summary type and decodable depth there is one figure f
and style s such that update_shap_summary_graph writes both the figure
and the index-selector style when the triggering channel is the
summary-type channel, and writes the same figure with an explicit
no-update on the style when the trigger is any other channel. -/
theorem summary_graph_trigger_fanout (c : ShapSummaryComponent)
    (summary_type depth pos_label : Option Val) (index : Option String)
    (hst : summary_type = some (.vstr "aggregate") ∨ summary_type = some (.vstr "detailed"))
    (hd : depth = none ∨ ∃ n, depth = some (.vint n)) :
    ∃ f s,
      (∀ rest, c.update_shap_summary_graph (("shap-summary-type-" ++ c.name) :: rest)
          summary_type depth index pos_label = .ok (.update (.set f, .set s)))
    ∧ (∀ t rest, t ≠ "shap-summary-type-" ++ c.name →
        c.update_shap_summary_graph (t :: rest) summary_type depth index pos_label
          = .ok (.update (.set f, .noUpdate))) := by
  rcases hst with hst | hst <;> rcases hd with hd | ⟨n, hd⟩ <;> subst hst <;> subst hd
  · refine ⟨SumFig.withSumLayout (.plot_importances "shap" none pos_label)
      "Valor médio absoluto SHAP" "Característica", .displayNone,
      fun rest => ?_, fun t rest ht => ?_⟩
    · simp [ShapSummaryComponent.update_shap_summary_graph, ShapSummaryComponent.ctx_result]
    · simp [ShapSummaryComponent.update_shap_summary_graph, ShapSummaryComponent.ctx_result, ht]
  · refine ⟨SumFig.withSumLayout (.plot_importances "shap" (some n) pos_label)
      "Valor médio absoluto SHAP" "Característica", .displayNone,
      fun rest => ?_, fun t rest ht => ?_⟩
    · simp only [ShapSummaryComponent.update_shap_summary_graph,
        ShapSummaryComponent.ctx_result, pyIntVal]
      simp
      rfl
    · simp only [ShapSummaryComponent.update_shap_summary_graph,
        ShapSummaryComponent.ctx_result, pyIntVal]
      simp [ht]
      rfl
  · refine ⟨SumFig.withSumLayout
      (.plot_importances_detailed none pos_label index c.max_cat_colors c.plot_sample)
      "Valor SHAP (impacto na saída do modelo)" "Característica", .emptyStyle,
      fun rest => ?_, fun t rest ht => ?_⟩
    · simp [ShapSummaryComponent.update_shap_summary_graph, ShapSummaryComponent.ctx_result]
    · simp [ShapSummaryComponent.update_shap_summary_graph, ShapSummaryComponent.ctx_result, ht]
  · refine ⟨SumFig.withSumLayout
      (.plot_importances_detailed (some n) pos_label index c.max_cat_colors c.plot_sample)
      "Valor SHAP (impacto na saída do modelo)" "Característica", .emptyStyle,
      fun rest => ?_, fun t rest ht => ?_⟩
    · simp only [ShapSummaryComponent.update_shap_summary_graph,
        ShapSummaryComponent.ctx_result, pyIntVal]
      simp
      rfl
    · simp only [ShapSummaryComponent.update_shap_summary_graph,
        ShapSummaryComponent.ctx_result, pyIntVal]
      simp [ht]
      rfl

/-- C9 witness: a concrete component in detailed mode updates both
outputs on a summary-type trigger and only the figure on a depth
trigger. -/
theorem summary_graph_trigger_fanout_witness :
    ∃ f s,
      (∀ rest, ShapSummaryComponent.update_shap_summary_graph ⟨"x", 5, none⟩
          (("shap-summary-type-x") :: rest)
          (some (.vstr "detailed")) (some (.vint 3)) (some "42") (some (.vint 1))
          = .ok (.update (.set f, .set s)))
    ∧ (∀ t rest, t ≠ "shap-summary-type-x" →
        ShapSummaryComponent.update_shap_summary_graph ⟨"x", 5, none⟩ (t :: rest)
          (some (.vstr "detailed")) (some (.vint 3)) (some "42") (some (.vint 1))
          = .ok (.update (.set f, .noUpdate))) := by
  have h := summary_graph_trigger_fanout ⟨"x", 5, none⟩
    (some (.vstr "detailed")) (some (.vint 3)) (some (.vint 1)) (some "42")
    (Or.inr rfl) (Or.inr ⟨3, rfl⟩)
  simpa using h

/-- C10: the summary-to-dependence connectors are transforming, not
identity broadcasters.  The shap connector registers one handler over
two distinct output channels that writes the (index, column) pair parsed
from a detailed-graph click only when the index exists, writes only the
parsed column of an aggregate-graph click when it is one of the
explainer columns, and raises the no-op signal whenever parsing or
validation fails; the interaction connector passes the summary column
channel through and gives its two click-derived outputs either the
validated parsed values or the per-output no-update marker. -/
theorem summary_dependence_connectors_transform
    (c : ShapSummaryDependenceConnector) (ci : InteractionSummaryDependenceConnector) :
    (∃ cb, c.component_callbacks = [cb]
      ∧ cb.inputs = ["shap-summary-graph-" ++ c.sum_name]
      ∧ cb.outputs = ["shap-dependence-index-" ++ c.dep_name,
                      "shap-dependence-col-" ++ c.dep_name]
      ∧ "shap-dependence-index-" ++ c.dep_name ≠ "shap-dependence-col-" ++ c.dep_name)
  ∧ (∀ p rest i col, p.y = some .float →
      parse_detailed_text (p.text.getD "") = some (i, col) →
      c.display_scatter_click_data (some ⟨some p :: rest⟩)
        = if c.explainer.index_exists i then .update (.set (some i), .set (some col))
          else .preventUpdate)
  ∧ (∀ p rest, p.y = some .float → parse_detailed_text (p.text.getD "") = none →
      c.display_scatter_click_data (some ⟨some p :: rest⟩) = .preventUpdate)
  ∧ (∀ p rest s, p.y = some (.str s) →
      c.display_scatter_click_data (some ⟨some p :: rest⟩)
        = if parse_aggregate_y s ∈ c.explainer.columns
          then .update (.noUpdate, .set (some (parse_aggregate_y s)))
          else .preventUpdate)
  ∧ c.display_scatter_click_data none = .preventUpdate
  ∧ (∀ col p rest i icol, p.y = some .float →
      parse_detailed_text (p.text.getD "") = some (i, icol) →
      ci.update_interact_col_highlight col (some ⟨some p :: rest⟩)
        = if ci.explainer.index_exists i ∧ icol ∈ ci.explainer.columns
          then .update (.set col, .set (some i), .set (some icol))
          else .update (.set col, .noUpdate, .noUpdate))
  ∧ (∀ col, ci.update_interact_col_highlight col none
      = .update (.set col, .noUpdate, .noUpdate)) := by
  refine ⟨⟨_, rfl, rfl, rfl, ?_⟩, ?_, ?_, ?_, rfl, ?_, fun col => rfl⟩
  · intro h
    have hlen := congrArg String.length h
    rw [String.length_append, String.length_append] at hlen
    have h1 : ("shap-dependence-index-" : String).length = 22 := rfl
    have h2 : ("shap-dependence-col-" : String).length = 20 := rfl
    rw [h1, h2] at hlen
    omega
  · intro p rest i col hy hparse
    simp [ShapSummaryDependenceConnector.display_scatter_click_data, hy, hparse]
  · intro p rest hy hparse
    simp [ShapSummaryDependenceConnector.display_scatter_click_data, hy, hparse]
  · intro p rest s hy
    simp [ShapSummaryDependenceConnector.display_scatter_click_data, hy]
  · intro col p rest i icol hy hparse
    simp only [InteractionSummaryDependenceConnector.update_interact_col_highlight,
      List.isEmpty_cons, Bool.false_eq_true, if_false, List.getD_cons_zero, hy, hparse]
    split <;> simp

/-- C10 witness: a concrete detailed-graph click with hover text naming
record 5 and column age, on an explainer where record 5 exists, writes
the parsed pair to the two dependence channels. -/
theorem summary_dependence_connectors_transform_witness :
    ShapSummaryDependenceConnector.display_scatter_click_data
      ⟨"s", "d", ⟨fun i => i == "5", ["age"], [], none, fun _ _ => none⟩⟩
      (some ⟨[some ⟨some .float, some "index=5<br>col=age"⟩]⟩)
      = .update (.set (some "5"), .set (some "age")) := by
  have h := (summary_dependence_connectors_transform
      ⟨"s", "d", ⟨fun i => i == "5", ["age"], [], none, fun _ _ => none⟩⟩
      ⟨"s2", "d2", ⟨fun i => i == "5", ["age"], [], none, fun _ _ => none⟩⟩).2.1
    ⟨some .float, some "index=5<br>col=age"⟩ [] "5" "age" rfl (by decide)
  simpa using h
